import Mathlib

/-!
Verification of the CloudCast weather app (`app.py`): a Flask front-end whose
lookup function `get_weather_data` issues one HTTP GET to a weather API and
maps the JSON response to either a success record or an error string, and
whose `index` handler renders the result.  The embedding below mirrors the
Python source: machine behaviour that is external to the process (the
transport outcome, the JSON body, the clock) is passed in explicitly, and
Python dynamic-access failures (KeyError, IndexError) become explicit
`Except` results.
-/

/-- Python truthiness of an optional string: `None` and `""` are falsy,
every other string (including whitespace-only) is truthy.  Mirrors
`if location:` and `if not OPENWEATHER_API_KEY:` in `app.py`. -/
def pyTruthy : Option String → Bool
  | none => false
  | some s => !(s == "")

/-- `not OPENWEATHER_API_KEY` — the key is missing when the environment
variable is unset (`None`) or the empty string. -/
def apiKeyMissing (k : Option String) : Bool :=
  !(pyTruthy k)

/-- Python `str.capitalize()`: first character upper-cased, the rest
lower-cased. -/
def pyCapitalize (s : String) : String :=
  match s.data with
  | [] => ""
  | c :: cs => String.mk (c.toUpper :: cs.map Char.toLower)

/-- The success dictionary built at app.py lines 88-95. -/
structure WeatherRecord where
  location : String
  temp : Rat
  description : String
  humidity : Rat
  wind_speed : Rat
  current_time : String
  deriving DecidableEq

/-- The `main` sub-object of the upstream JSON; each field may be absent. -/
structure MainJson where
  temp : Option Rat
  humidity : Option Rat
  deriving DecidableEq

/-- An element of the `weather` array of the upstream JSON. -/
structure WeatherItemJson where
  description : Option String
  deriving DecidableEq

/-- The `wind` sub-object of the upstream JSON. -/
structure WindJson where
  speed : Option Rat
  deriving DecidableEq

/-- The upstream JSON body, with every field the code accesses optional;
`message` is the error text read by `data.get` on non-200 statuses. -/
structure JsonBody where
  name : Option String
  main : Option MainJson
  weather : Option (List WeatherItemJson)
  wind : Option WindJson
  message : Option String
  deriving DecidableEq

/-- Outcome of the single `requests.get` call, as seen by the process:
a transport-level failure (`requests.exceptions.RequestException`), a
response whose body fails to parse as JSON (`response.json()` raises, a
`RequestException` subclass in current `requests`), or a status code with
a parsed JSON body. -/
inductive Upstream where
  | transportFailure (desc : String)
  | invalidJson (desc : String)
  | response (status : Nat) (body : JsonBody)
  deriving DecidableEq

/-- A Python exception raised while extracting fields from the parsed
body: a `KeyError` naming the key, or any other exception (such as the
`IndexError` from `data['weather'][0]` on an empty list) carrying its
description. -/
inductive PyErr where
  | keyError (k : String)
  | otherError (msg : String)
  deriving DecidableEq

/-- The dictionary returned by `get_weather_data`: either the success
record (no `error` key) or a dictionary holding only an `error` string. -/
inductive LookupResult where
  | ok (record : WeatherRecord)
  | err (message : String)
  deriving DecidableEq

/-- The caller's test `if 'error' in result:` — true exactly on the error
dictionary, whose only key is `error`. -/
def hasErrorField : LookupResult → Bool
  | .ok _ => false
  | .err _ => true

/-- Field extraction of app.py lines 88-95, in Python evaluation order
(`name`, `main` then `temp`, `weather` then `[0]` then `description`,
`humidity`, `wind` then `speed`); the first failing access raises. -/
def extractRecord (body : JsonBody) (now : String) : Except PyErr WeatherRecord :=
  match body.name with
  | none => .error (.keyError "name")
  | some nm =>
    match body.main with
    | none => .error (.keyError "main")
    | some m =>
      match m.temp with
      | none => .error (.keyError "temp")
      | some t =>
        match body.weather with
        | none => .error (.keyError "weather")
        | some [] => .error (.otherError "list index out of range")
        | some (w :: _) =>
          match w.description with
          | none => .error (.keyError "description")
          | some d =>
            match m.humidity with
            | none => .error (.keyError "humidity")
            | some hum =>
              match body.wind with
              | none => .error (.keyError "wind")
              | some wd =>
                match wd.speed with
                | none => .error (.keyError "speed")
                | some sp =>
                  .ok ⟨nm, t, pyCapitalize d, hum, sp, now⟩

/-- `get_weather_data` (app.py lines 70-105).  Besides the result it
returns the number of outbound HTTP GET requests issued during the call:
0 when the key check fails before `requests.get`, 1 in every other case.
`now` is the value of `datetime.now().strftime(...)`. -/
def get_weather_data (apiKey : Option String) (now : String)
    (upstream : Upstream) (location : String) : LookupResult × Nat :=
  if apiKeyMissing apiKey then
    (.err "API Key not configured. Please set the OPENWEATHER_API_KEY environment variable.", 0)
  else
    match upstream with
    | .transportFailure e =>
      (.err ("Network error: " ++ e ++ ". Check internet connection or API endpoint."), 1)
    | .invalidJson e =>
      (.err ("Network error: " ++ e ++ ". Check internet connection or API endpoint."), 1)
    | .response status body =>
      if status = 200 then
        match extractRecord body now with
        | .ok rec => (.ok rec, 1)
        | .error (.keyError k) =>
          (.err ("Unexpected API response format: Missing key \x27" ++ k ++ "\x27. Please try again."), 1)
        | .error (.otherError m) =>
          (.err ("An unexpected error occurred: " ++ m), 1)
      else
        (.err ("Error fetching weather for " ++ location ++ ": "
          ++ pyCapitalize (body.message.getD "Unknown error")), 1)

/-- Request method of the two routes. -/
inductive Method where
  | get
  | post
  deriving DecidableEq

/-- An incoming HTTP request: method, path, and the optional `location`
form field (`request.form.get('location')`). -/
structure HttpRequest where
  method : Method
  path : String
  form_location : Option String
  deriving DecidableEq

/-- A response of the app: the rendered template with its two variable
arguments (`weather_data`, `error`), a plain-text response with a status
code, or a routing failure. -/
inductive HttpResponse where
  | htmlPage (weather_data : Option WeatherRecord) (error : Option String)
  | plain (body : String) (status : Nat)
  | methodNotAllowed
  | notFound
  deriving DecidableEq

/-- The `index` handler (app.py lines 107-129): missing key short-circuits
to an error page; a POST with a truthy `location` runs the lookup; a POST
with a falsy `location` reports "Please enter a location."; a GET renders
the bare form.  The second component counts outbound HTTP requests. -/
def index (apiKey : Option String) (now : String) (upstream : Upstream)
    (method : Method) (formLocation : Option String) : HttpResponse × Nat :=
  if apiKeyMissing apiKey then
    (.htmlPage none (some "OpenWeatherMap API Key is not set in environment variables."), 0)
  else
    match method with
    | .post =>
      if pyTruthy formLocation then
        match get_weather_data apiKey now upstream (formLocation.getD "") with
        | (.err e, n) => (.htmlPage none (some e), n)
        | (.ok w, n) => (.htmlPage (some w) none, n)
      else
        (.htmlPage none (some "Please enter a location."), 0)
    | .get => (.htmlPage none none, 0)

/-- The `/health` handler (app.py lines 131-134): `return "OK", 200`. -/
def health_check : String × Nat :=
  ("OK", 200)

/-- Route dispatch of the Flask app: `/` accepts GET and POST and runs
`index`; `/health` accepts GET only and runs `health_check`; anything
else is a routing failure. -/
def app_handle (apiKey : Option String) (now : String) (upstream : Upstream)
    (req : HttpRequest) : HttpResponse × Nat :=
  if req.path = "/" then
    index apiKey now upstream req.method req.form_location
  else if req.path = "/health" then
    match req.method with
    | .get => (.plain health_check.1 health_check.2, 0)
    | .post => (.methodNotAllowed, 0)
  else (.notFound, 0)

/-- The stubbed upstream body of the London test case. -/
def londonBody : JsonBody :=
  { name := some "London"
  , main := some { temp := some 15, humidity := some 70 }
  , weather := some [{ description := some "clear sky" }]
  , wind := some { speed := some (3.2 : Rat) }
  , message := none }

/-- The first key whose dictionary access fails during extraction, in the
evaluation order of app.py lines 88-95; `none` when no access raises a
KeyError before all fields are read (including the case where `weather`
is an empty list, which raises IndexError instead). -/
def firstMissingKey (b : JsonBody) : Option String :=
  match b.name with
  | none => some "name"
  | some _ =>
    match b.main with
    | none => some "main"
    | some m =>
      match m.temp with
      | none => some "temp"
      | some _ =>
        match b.weather with
        | none => some "weather"
        | some [] => none
        | some (w :: _) =>
          match w.description with
          | none => some "description"
          | some _ =>
            match m.humidity with
            | none => some "humidity"
            | some _ =>
              match b.wind with
              | none => some "wind"
              | some wd =>
                match wd.speed with
                | none => some "speed"
                | some _ => none

/-- Whether the named key is genuinely absent at its expected position in
the body. -/
def keyAbsentIn (b : JsonBody) (k : String) : Bool :=
  if k = "name" then b.name.isNone
  else if k = "main" then b.main.isNone
  else if k = "temp" then
    match b.main with
    | none => true
    | some m => m.temp.isNone
  else if k = "weather" then b.weather.isNone
  else if k = "description" then
    match b.weather with
    | none => true
    | some [] => true
    | some (w :: _) => w.description.isNone
  else if k = "humidity" then
    match b.main with
    | none => true
    | some m => m.humidity.isNone
  else if k = "wind" then b.wind.isNone
  else if k = "speed" then
    match b.wind with
    | none => true
    | some wd => wd.speed.isNone
  else false

/-- The stubbed upstream body of the missing-`wind` test case. -/
def missingWindBody : JsonBody :=
  { name := some "London"
  , main := some { temp := some 15, humidity := some 70 }
  , weather := some [{ description := some "clear sky" }]
  , wind := none
  , message := none }

/-- The stubbed upstream body of the 404 test case. -/
def notFoundBody : JsonBody :=
  { name := none, main := none, weather := none, wind := none
  , message := some "city not found" }

/-- C1: a lookup with a non-empty API key against a 200 response carrying
the London body returns the success record with location "London",
temperature 15.0, description "Clear sky", humidity 70 and wind speed
3.2. -/
theorem c1_london_success (k : String) (h : k ≠ "") (now loc : String) :
    get_weather_data (some k) now (Upstream.response 200 londonBody) loc
      = (LookupResult.ok ⟨"London", 15, "Clear sky", 70, (3.2 : Rat), now⟩, 1) := by
  have hk : apiKeyMissing (some k) = false := by
    simp [apiKeyMissing, pyTruthy, h]
  simp only [get_weather_data, hk, Bool.false_eq_true, if_false]
  rfl

theorem c1_london_success_witness :
    get_weather_data (some "key1") "2024-01-01 00:00:00"
        (Upstream.response 200 londonBody) "London"
      = (LookupResult.ok ⟨"London", 15, "Clear sky", 70, (3.2 : Rat), "2024-01-01 00:00:00"⟩, 1) :=
  c1_london_success "key1" (by decide) "2024-01-01 00:00:00" "London"

/-- C2 counterexample: a POST with the whitespace-only location " " is
truthy in Python, so the handler does run the lookup — it issues one
network request and does not return the "Please enter a location."
error. -/
theorem c2_whitespace_counterexample :
    (app_handle (some "k") "2024-01-01 00:00:00" (Upstream.transportFailure "boom")
        ⟨Method.post, "/", some " "⟩).2 = 1 ∧
    (app_handle (some "k") "2024-01-01 00:00:00" (Upstream.transportFailure "boom")
        ⟨Method.post, "/", some " "⟩).1
      ≠ HttpResponse.htmlPage none (some "Please enter a location.") :=
  ⟨rfl, by decide⟩

/-- C2 (amended): with the API key set, a POST whose location form field
is missing or empty returns the "Please enter a location." error and
issues no network request; a whitespace-only location is treated as a
provided location and triggers a lookup instead. -/
theorem c2_empty_location (apiKey : Option String) (h : apiKeyMissing apiKey = false)
    (now : String) (up : Upstream) (fl : Option String)
    (hfl : fl = none ∨ fl = some "") :
    app_handle apiKey now up ⟨Method.post, "/", fl⟩
      = (HttpResponse.htmlPage none (some "Please enter a location."), 0) := by
  have hft : pyTruthy fl = false := by
    rcases hfl with rfl | rfl <;> rfl
  simp [app_handle, index, h, hft]

theorem c2_empty_location_witness :
    app_handle (some "key1") "2024-01-01 00:00:00"
        (Upstream.transportFailure "boom") ⟨Method.post, "/", none⟩
      = (HttpResponse.htmlPage none (some "Please enter a location."), 0) :=
  c2_empty_location (some "key1") (by decide) "2024-01-01 00:00:00"
    (Upstream.transportFailure "boom") none (Or.inl rfl)

/-- When the extraction order hits a failing dictionary access, the
extraction returns the KeyError naming that key, and the key is indeed
absent at its position in the body. -/
theorem extract_missing_key (b : JsonBody) (miss : String)
    (hm : firstMissingKey b = some miss) (now : String) :
    extractRecord b now = Except.error (PyErr.keyError miss) ∧
    keyAbsentIn b miss = true := by
  obtain ⟨name, main, weather, wind, message⟩ := b
  cases name with
  | none =>
    injection hm with hmx
    subst hmx
    exact ⟨rfl, rfl⟩
  | some nm =>
    cases main with
    | none =>
      injection hm with hmx
      subst hmx
      exact ⟨rfl, rfl⟩
    | some m =>
      obtain ⟨mtemp, mhum⟩ := m
      cases mtemp with
      | none =>
        injection hm with hmx
        subst hmx
        exact ⟨rfl, rfl⟩
      | some t =>
        cases weather with
        | none =>
          injection hm with hmx
          subst hmx
          exact ⟨rfl, rfl⟩
        | some ws =>
          cases ws with
          | nil => exact Option.noConfusion hm
          | cons w rest =>
            obtain ⟨wdesc⟩ := w
            cases wdesc with
            | none =>
              injection hm with hmx
              subst hmx
              exact ⟨rfl, rfl⟩
            | some d =>
              cases mhum with
              | none =>
                injection hm with hmx
                subst hmx
                exact ⟨rfl, rfl⟩
              | some hum =>
                cases wind with
                | none =>
                  injection hm with hmx
                  subst hmx
                  exact ⟨rfl, rfl⟩
                | some wd =>
                  obtain ⟨wspeed⟩ := wd
                  cases wspeed with
                  | none =>
                    injection hm with hmx
                    subst hmx
                    exact ⟨rfl, rfl⟩
                  | some sp => exact Option.noConfusion hm

/-- C3: with a non-empty API key and a 200 response whose body is missing
an expected field — formalised as the first dictionary access that fails
in the extraction order of app.py lines 88-95 — the lookup returns the
"Missing key" error naming that field (which is genuinely absent), with
exactly one request issued and no exception escaping. -/
theorem c3_malformed_response (k : String) (h : k ≠ "") (now loc : String)
    (b : JsonBody) (miss : String) (hm : firstMissingKey b = some miss) :
    keyAbsentIn b miss = true ∧
    get_weather_data (some k) now (Upstream.response 200 b) loc
      = (LookupResult.err ("Unexpected API response format: Missing key \x27" ++ miss
          ++ "\x27. Please try again."), 1) := by
  obtain ⟨hx, habs⟩ := extract_missing_key b miss hm now
  have hk : apiKeyMissing (some k) = false := by
    simp [apiKeyMissing, pyTruthy, h]
  exact ⟨habs, by simp [get_weather_data, hk, hx]⟩

theorem c3_malformed_response_witness :
    keyAbsentIn missingWindBody "wind" = true ∧
    get_weather_data (some "key1") "2024-01-01 00:00:00"
        (Upstream.response 200 missingWindBody) "London"
      = (LookupResult.err ("Unexpected API response format: Missing key \x27wind\x27. Please try again."), 1) := by
  have := c3_malformed_response "key1" (by decide) "2024-01-01 00:00:00" "London"
    missingWindBody "wind" rfl
  simpa using this

/-- C4: whenever the API key is unset or empty, every request to `/` —
GET or POST, with any form contents — renders the missing-key error and
issues no network request. -/
theorem c4_missing_key (apiKey : Option String) (h : apiKeyMissing apiKey = true)
    (now : String) (up : Upstream) (m : Method) (fl : Option String) :
    app_handle apiKey now up ⟨m, "/", fl⟩
      = (HttpResponse.htmlPage none
          (some "OpenWeatherMap API Key is not set in environment variables."), 0) := by
  simp [app_handle, index, h]

theorem c4_missing_key_witness :
    app_handle none "2024-01-01 00:00:00" (Upstream.transportFailure "down")
        ⟨Method.post, "/", some "London"⟩
      = (HttpResponse.htmlPage none
          (some "OpenWeatherMap API Key is not set in environment variables."), 0) :=
  c4_missing_key none rfl "2024-01-01 00:00:00" (Upstream.transportFailure "down")
    Method.post (some "London")

/-- C5: with a non-empty API key, a transport-successful response with a
non-2xx status yields the upstream error whose text carries the body's
`message` field passed through Python capitalize (fallback "Unknown
error"); the 404 body with message "city not found" yields "City not
found". -/
theorem c5_upstream_error (k : String) (h : k ≠ "") (now loc : String)
    (status : Nat) (hs : status < 200 ∨ 300 ≤ status) (b : JsonBody) :
    get_weather_data (some k) now (Upstream.response status b) loc
      = (LookupResult.err ("Error fetching weather for " ++ loc ++ ": "
          ++ pyCapitalize (b.message.getD "Unknown error")), 1) ∧
    get_weather_data (some k) now (Upstream.response 404 notFoundBody) loc
      = (LookupResult.err ("Error fetching weather for " ++ loc ++ ": "
          ++ "City not found"), 1) := by
  have hk : apiKeyMissing (some k) = false := by
    simp [apiKeyMissing, pyTruthy, h]
  have hne : status ≠ 200 := by omega
  constructor
  · simp [get_weather_data, hk, hne]
  · simp only [get_weather_data, hk, Bool.false_eq_true, if_false]
    rfl

theorem c5_upstream_error_witness :
    get_weather_data (some "key1") "2024-01-01 00:00:00"
        (Upstream.response 404 notFoundBody) "Atlantis"
      = (LookupResult.err ("Error fetching weather for " ++ "Atlantis" ++ ": "
          ++ pyCapitalize (notFoundBody.message.getD "Unknown error")), 1) ∧
    get_weather_data (some "key1") "2024-01-01 00:00:00"
        (Upstream.response 404 notFoundBody) "Atlantis"
      = (LookupResult.err ("Error fetching weather for " ++ "Atlantis" ++ ": "
          ++ "City not found"), 1) :=
  c5_upstream_error "key1" (by decide) "2024-01-01 00:00:00" "Atlantis" 404
    (Or.inr (by norm_num)) notFoundBody

/-- C6: for every API key, clock, upstream behaviour (transport failure,
non-JSON body, any status and body) and location, the lookup returns a
value — a success record or an error string — so no exception reaches the
caller. -/
theorem c6_total (apiKey : Option String) (now : String) (up : Upstream) (loc : String) :
    (∃ rec, (get_weather_data apiKey now up loc).1 = LookupResult.ok rec)
      ∨ (∃ e, (get_weather_data apiKey now up loc).1 = LookupResult.err e) := by
  rcases hr : (get_weather_data apiKey now up loc).1 with rec | e
  · exact Or.inl ⟨rec, rfl⟩
  · exact Or.inr ⟨e, rfl⟩

/-- C7: with a non-empty API key the lookup issues exactly one outbound
HTTP GET whatever the upstream does, and a transport-level failure is
reported as the network error carrying the underlying description. -/
theorem c7_single_request (k : String) (h : k ≠ "") (now loc : String) (up : Upstream) :
    (get_weather_data (some k) now up loc).2 = 1 ∧
    ∀ e, up = Upstream.transportFailure e →
      (get_weather_data (some k) now up loc).1
        = LookupResult.err ("Network error: " ++ e
            ++ ". Check internet connection or API endpoint.") := by
  have hk : apiKeyMissing (some k) = false := by
    simp [apiKeyMissing, pyTruthy, h]
  constructor
  · cases up with
    | transportFailure e => simp [get_weather_data, hk]
    | invalidJson e => simp [get_weather_data, hk]
    | response status body =>
      by_cases hs : status = 200
      · subst hs
        rcases hx : extractRecord body now with pe | rec
        · cases pe with
          | keyError kk => simp [get_weather_data, hk, hx]
          | otherError msg => simp [get_weather_data, hk, hx]
        · simp [get_weather_data, hk, hx]
      · simp [get_weather_data, hk, hs]
  · rintro e rfl
    simp [get_weather_data, hk]

theorem c7_single_request_witness :
    (get_weather_data (some "key1") "2024-01-01 00:00:00"
        (Upstream.transportFailure "connection refused") "London").2 = 1 ∧
    ∀ e, Upstream.transportFailure "connection refused" = Upstream.transportFailure e →
      (get_weather_data (some "key1") "2024-01-01 00:00:00"
          (Upstream.transportFailure "connection refused") "London").1
        = LookupResult.err ("Network error: " ++ e
            ++ ". Check internet connection or API endpoint.") :=
  c7_single_request "key1" (by decide) "2024-01-01 00:00:00" "London"
    (Upstream.transportFailure "connection refused")

/-- C8: every lookup result is exactly one of a success record or an
error — never both, never neither — and the caller's `in`-test for the
`error` key holds exactly on the error case. -/
theorem c8_exclusive (apiKey : Option String) (now : String) (up : Upstream) (loc : String) :
    Xor' (∃ rec, (get_weather_data apiKey now up loc).1 = LookupResult.ok rec)
        (∃ e, (get_weather_data apiKey now up loc).1 = LookupResult.err e) ∧
    (hasErrorField (get_weather_data apiKey now up loc).1 = true
      ↔ ∃ e, (get_weather_data apiKey now up loc).1 = LookupResult.err e) := by
  rcases hr : (get_weather_data apiKey now up loc).1 with rec | e
  · simp [Xor', hasErrorField]
  · simp [Xor', hasErrorField]

/-- C9: for every API key state and upstream behaviour, a GET to
`/health` returns status 200 with body "OK" and performs no network
call. -/
theorem c9_health_always_ok (apiKey : Option String) (now : String)
    (up : Upstream) (fl : Option String) :
    app_handle apiKey now up ⟨Method.get, "/health", fl⟩
      = (HttpResponse.plain "OK" 200, 0) :=
  rfl

/-- C10: two runs that differ only in the (non-empty) API key value —
same location, same upstream outcome, same clock — produce identical
lookup results and identical rendered pages, so the key value never
influences (nor appears in) what the user sees. -/
theorem c10_key_noninterference (k₁ k₂ : String) (h₁ : k₁ ≠ "") (h₂ : k₂ ≠ "")
    (now loc : String) (up : Upstream) (m : Method) (fl : Option String) :
    get_weather_data (some k₁) now up loc = get_weather_data (some k₂) now up loc ∧
    app_handle (some k₁) now up ⟨m, "/", fl⟩
      = app_handle (some k₂) now up ⟨m, "/", fl⟩ := by
  have hk₁ : apiKeyMissing (some k₁) = false := by
    simp [apiKeyMissing, pyTruthy, h₁]
  have hk₂ : apiKeyMissing (some k₂) = false := by
    simp [apiKeyMissing, pyTruthy, h₂]
  constructor
  · simp only [get_weather_data, hk₁, hk₂, Bool.false_eq_true, if_false]
  · simp [app_handle, index, get_weather_data, hk₁, hk₂]

theorem c10_key_noninterference_witness :
    get_weather_data (some "keyA") "2024-01-01 00:00:00"
        (Upstream.response 200 londonBody) "London"
      = get_weather_data (some "keyB") "2024-01-01 00:00:00"
          (Upstream.response 200 londonBody) "London" ∧
    app_handle (some "keyA") "2024-01-01 00:00:00"
        (Upstream.response 200 londonBody) ⟨Method.post, "/", some "London"⟩
      = app_handle (some "keyB") "2024-01-01 00:00:00"
          (Upstream.response 200 londonBody) ⟨Method.post, "/", some "London"⟩ :=
  c10_key_noninterference "keyA" "keyB" (by decide) (by decide)
    "2024-01-01 00:00:00" "London" (Upstream.response 200 londonBody)
    Method.post (some "London")
